import Mathlib

/-!
Verification of the Execution Session Capture & Submission pipeline
(`src/extension/messages/platformRequest/saveCellExecution.ts` together with
`src/constants.ts`).

The TypeScript function `saveCellExecution` is embedded shallowly as a pure
Lean function from a `SaveEnv` record to a `RunOutput` record.  The `SaveEnv`
record holds the value that each external collaborator call returns during the
run (authentication provider, serializer caches, git context, OS facts,
GraphQL client, ...), plus the scheduling facts that the run can observe: the
outcome of the interactive-authentication race and the point in the run's
timeline at which a cancellation request (if any) arrives.  The `RunOutput`
record collects every externally observable action the run performs: replies
posted back over the messaging channel, warning messages shown, GraphQL
mutations submitted, and auth-state-change listeners added/removed.

Cancellation model.  The code reads `token.isCancellationRequested` at exactly
two program points (after registering the auth listener, and in the `finally`
block of the authentication race); the reply calls come later.  A token is
monotone: once cancelled it stays cancelled.  We give the run a coarse
timeline with four observation points — 0 (entry), 1 (the check after the
listener is registered, line 98), 2 (the check in the race `finally`,
line 116), 3 (the response-dispatch calls) — and let the environment say
before which point the cancel request arrives (`cancelArrives`, `none` for an
uncancelled run).  Every real schedule projects onto such an assignment and
every assignment is realizable, because the token state is a monotone boolean
observed at those four ordered points.

The process-wide single-flight slot (`currentCts`, lines 58, 67-72 and
389-394) is modelled separately as a small state machine `GuardState` with
the two operations `beginRun`/`endRun` named by the spec's Single-Flight
Guard contract; `beginRun` transcribes the inline lines 67-72 and `endRun`
the `finally` block in lines 389-394.
-/

/-! ## JavaScript helpers

Small helpers making JavaScript value semantics explicit where the source
relies on them. -/

/-- Truthiness of an optional JS string: `undefined` and the empty string are
falsy, every other string is truthy. -/
def jsTruthyOptStr : Option String → Bool
  | some s => s ≠ ""
  | none => false

/-- JS `x || d` for a string `x`: the empty string falls back to `d`. -/
def jsStringOr (s d : String) : String :=
  if s = "" then d else s

/-- JS `x || d` for an optional number `x`: `undefined` and `0` fall back to
`d`. -/
def jsNumOr (o : Option Nat) (d : Nat) : Nat :=
  match o with
  | some n => if n = 0 then d else n
  | none => d

/-- Interpolating a possibly-undefined string into a JS template literal:
`undefined` prints as the text "undefined". -/
def jsTemplateOpt : Option String → String
  | some s => s
  | none => "undefined"

/-- A value produced by the JS builtin `encodeURIComponent`; kept as an
injective wrapper around the raw text since no claim depends on the encoding
itself. -/
structure UriEncoded where
  raw : String
deriving DecidableEq, Repr

/-! ## Constants (`src/constants.ts`) -/

namespace OutputType

/-- `OutputType.shell` from src/constants.ts. -/
def shell : String := "stateful.runme/shell-stdout"

/-- `OutputType.vercel` from src/constants.ts. -/
def vercel : String := "stateful.runme/vercel-stdout"

/-- `OutputType.html` from src/constants.ts. -/
def html : String := "stateful.runme/html-stdout"

/-- `OutputType.script` from src/constants.ts. -/
def script : String := "stateful.runme/script-stdout"

/-- `OutputType.error` from src/constants.ts. -/
def error : String := "error"

/-- Modelled from the spec: the "stdout" output kind used as the mime filter
of the reporter payload.  `saveCellExecution.ts` line 254 references
`OutputType.stdout`, but the member is absent from the `OutputType` enum in
the copy of src/constants.ts in this repository snapshot, so its value is
taken from the spec's "stdout output kind" wording; no claim depends on the
concrete string, only on equality with it. -/
def stdout : String := "stateful.runme/stdout"

end OutputType

/-! ## Collaborator data shapes

These mirror the contracts of the external collaborators as consumed by
`saveCellExecution` (and, where the collaborator's own source is not part of
this snapshot, the shapes given in spec section 6). -/

/-- An authentication session; opaque credential
(`StatefulAuthSession`). -/
structure StatefulAuthSession where
  raw : String
deriving DecidableEq, Repr

/-- Parsed `runme` frontmatter block: `fmParsed?.runme?.id` /
`fmParsed?.runme?.version`. -/
structure FrontmatterRunme where
  id : Option String
  version : Option String
deriving DecidableEq, Repr

/-- Parsed document frontmatter as consumed in lines 296-315. -/
structure Frontmatter where
  runme : Option FrontmatterRunme
deriving DecidableEq, Repr

/-- The `vsEnv` object built in lines 178-190 from the vscode `env`
collaborator; `remoteName` already has the `|| ''` fallback applied. -/
structure VsEnv where
  appHost : String
  appName : String
  appRoot : String
  isNewAppInstall : Bool
  language : String
  machineId : String
  remoteName : String
  sessionId : String
  shell : String
  uiKind : Nat
  uriScheme : String
deriving DecidableEq, Repr

/-- Raw fields of the vscode `env` collaborator before the run massages
them; `remoteName` may be undefined (line 185 applies `|| ''`). -/
structure VscodeEnv where
  appHost : String
  appName : String
  appRoot : String
  isNewAppInstall : Bool
  language : String
  machineId : String
  remoteName : Option String
  sessionId : String
  shell : String
  uiKind : Nat
  uriScheme : String
deriving DecidableEq, Repr

/-- Line 178-190: assemble `vsEnv` from the vscode `env` collaborator. -/
def mkVsEnv (e : VscodeEnv) : VsEnv :=
  { appHost := e.appHost
    appName := e.appName
    appRoot := e.appRoot
    isNewAppInstall := e.isNewAppInstall
    language := e.language
    machineId := e.machineId
    remoteName := e.remoteName.getD ""
    sessionId := e.sessionId
    shell := e.shell
    uiKind := e.uiKind
    uriScheme := e.uriScheme }

/-- One output item of a marshalled notebook cell; `mime` is the field the
redaction filter inspects (line 254). -/
structure NbItem where
  mime : String
  data : String
deriving DecidableEq, Repr

/-- One output of a marshalled notebook cell.  `rest` stands for the
remaining fields that the object spread `{...output}` of line 252 copies
through unchanged. -/
structure NbOutput where
  items : List NbItem
  rest : String
deriving DecidableEq, Repr

/-- Metadata of a marshalled notebook cell; `id` is compared against
`message.output.id` in line 206. -/
structure NbCellMetadata where
  id : Option String
deriving DecidableEq, Repr

/-- A marshalled notebook cell as produced by the serializer collaborator
(`ConnectSerializer.marshalNotebook`, external to this snapshot); the fields
are the ones the run reads or forwards. -/
structure NbCell where
  metadata : NbCellMetadata
  outputs : List NbOutput
  value : String
  languageId : String
deriving DecidableEq, Repr

/-- A marshalled notebook (serializer collaborator output): cells plus the
frontmatter and metadata forwarded in lines 261-262. -/
structure Notebook where
  cells : List NbCell
  frontmatter : Option Frontmatter
  metadata : String
deriving DecidableEq, Repr

/-- Cell annotations as returned by the `getAnnotations` collaborator, with
the internal record-id key that line 292 deletes modelled as
`runmeDevId`. -/
structure Annotations where
  id : Option String
  name : String
  category : String
  mimeType : Option String
  runmeDevId : Option String
deriving DecidableEq, Repr

/-- The live notebook cell resolved by `getCellById` on the legacy path,
flattened to the fields the run reads: annotations, source text and language
id (lines 326-327), execution timing (lines 334-335) and the runme id used
for the terminal lookup (line 278). -/
structure LiveCell where
  annotations : Annotations
  documentText : String
  languageId : String
  startTime : Option Nat
  endTime : Option Nat
  runmeId : String
deriving DecidableEq, Repr

/-- Exit status reported by the runner session.  Per the spec's data model
the exit kind is `exit` (with a code), `error`, or absent; absence is
represented by `Option` at the use site. -/
inductive RunnerExitStatus where
  | exit (code : Nat)
  | error
deriving DecidableEq, Repr

/-- The runner session behind a terminal; `hasExited` is the result of the
`hasExited()` call in line 284 (possibly undefined). -/
structure RunnerSession where
  hasExited : Option RunnerExitStatus
deriving DecidableEq, Repr

/-- A terminal resolved by `kernel.getTerminal`: its process id (line 283,
possibly undefined) and its runner session (line 284, possibly
undefined). -/
structure Terminal where
  processId : Option Nat
  runnerSession : Option RunnerSession
deriving DecidableEq, Repr

/-- Outcome of the `Promise.race` of lines 103-112: the authentication event
fired (delivering the then-current session, possibly undefined), the timeout
rejected, or the cancellation callback rejected. -/
inductive RaceOutcome where
  | eventFired (s : Option StatefulAuthSession)
  | timedOut
  | cancelledReject
deriving DecidableEq, Repr

/-! ## The run environment -/

/-- Everything a single run of `saveCellExecution` can observe: the request
message, configuration and feature flags, the values returned by each
collaborator call, and the scheduling facts (race outcome, cancellation
arrival point, whether the external auth-state-change event ever fires). -/
structure SaveEnv where
  /-- `message.output.id`: the target cell id, echoed in every reply. -/
  messageId : String
  /-- `message.output.data.isUserAction`. -/
  isUserAction : Bool
  /-- `message.output.data.stdout`: captured terminal text (line 294). -/
  stdoutText : String
  /-- `features.isOnInContextState(FeatureName.ReporterAPI)` (line 64). -/
  isReporterEnabled : Bool
  /-- `ContextState.getKey(NOTEBOOK_AUTOSAVE_ON)` (line 75). -/
  autoSaveIsOn : Bool
  /-- `kernel.isFeatureOn(FeatureName.ForceLogin)` (line 76). -/
  forceLogin : Bool
  /-- Result of `StatefulAuthProvider.instance.currentSession()` (line 78). -/
  currentSession : Option StatefulAuthSession
  /-- Result of `StatefulAuthProvider.instance.newSession()` (line 81). -/
  newSession : Option StatefulAuthSession
  /-- Outcome of the authentication race (lines 103-112). -/
  raceOutcome : RaceOutcome
  /-- Whether the external auth-state-change event ever fires, i.e. whether
  the registered callback (which deregisters itself, line 90) ever runs. -/
  authChangeEventFires : Bool
  /-- Timeline point before which the cancel request arrives; `none` for a
  run that is never superseded. -/
  cancelArrives : Option Nat
  /-- `editor.notebook.uri.fsPath` (line 139). -/
  path : String
  /-- `editor.notebook.metadata[RUNME_FRONTMATTER_PARSED]` as read on the
  legacy path (line 296). -/
  metadataFrontmatterParsed : Option Frontmatter
  /-- Result of the YAML frontmatter fallback parse of lines 299-305
  (`none` when parsing threw). -/
  yamlFrontmatter : Option Frontmatter
  /-- `getDocumentCacheId(metadata)` (line 169). -/
  cacheId : String
  /-- `kernel.getPlainCache(cacheId)` (line 170). -/
  plainSessionOutput : String
  /-- `kernel.getMaskedCache(cacheId)` (line 171). -/
  maskedSessionOutput : String
  /-- `kernel.getNotebookDataCache(cacheId)` marshalled by
  `ConnectSerializer.marshalNotebook` (lines 195-204); `none` models the
  cache miss of line 197. -/
  marshalledNotebook : Option Notebook
  /-- Result of `getCellById` (line 273). -/
  cellById : Option LiveCell
  /-- Result of `kernel.getTerminal(runmeId)` (line 279). -/
  terminal : Option Terminal
  /-- `kernel.getRunnerEnvironment()?.getSessionId()` (line 316). -/
  runnerSessionId : Option String
  /-- `gitCtx.branch` (line 140). -/
  gitBranch : Option String
  /-- `gitCtx.commit`. -/
  gitCommit : Option String
  /-- `gitCtx.repository`. -/
  gitRepository : Option String
  /-- `gitCtx.relativePath`. -/
  gitRelativePath : Option String
  /-- Bytes returned by `workspace.fs.readFile` (line 142). -/
  fileBytes : List Nat
  /-- `os.hostname()` (line 173). -/
  osHostname : String
  /-- `process.env.K_SERVICE` (line 174). -/
  kService : Option String
  /-- `os.arch()`. -/
  osArch : String
  /-- `os.platform()`. -/
  osPlatform : String
  /-- `os.release()`. -/
  osRelease : String
  /-- `getMAC()`. -/
  macAddress : String
  /-- `os.userInfo().shell` (line 225, possibly null). -/
  osUserShell : Option String
  /-- `os.userInfo().username` (line 226). -/
  osUserName : String
  /-- `os.cpus()[0].model` (line 353). -/
  cpuModel : String
  /-- The vscode `env` collaborator (lines 178-190). -/
  vscodeEnv : VscodeEnv
  /-- Failure of `graphClient.mutate` (lines 268, 369): `some msg` means the
  call rejected with that message, caught by the top-level boundary. -/
  mutateError : Option String
  /-- Opaque success value of `graphClient.mutate`. -/
  mutateResult : String
deriving DecidableEq, Repr

/-- The token state the run would observe at timeline point `p`
(monotone: once requested, stays requested). -/
def isCancelled (env : SaveEnv) (p : Nat) : Bool :=
  match env.cancelArrives with
  | some t => decide (t ≤ p)
  | none => false

/-! ## Observable run output -/

/-- Payload of a `postClientMessage(..., ClientMessages.platformApiResponse, ...)`
call: the share marker of lines 122-127/148-153, the mutation result of
line 377, or the error message of line 384. -/
inductive ReplyData where
  | displayShareFalse
  | success (result : String)
  | errorMsg (msg : String)
deriving DecidableEq, Repr

/-- One reply posted on the messaging channel. -/
structure Reply where
  id : String
  data : ReplyData
  hasErrors : Bool
deriving DecidableEq, Repr

/-! ## Payload shapes (spec section 4.4) -/

/-- The `device` object of the reporter payload (lines 219-232). -/
structure ReporterDevice where
  arch : String
  hostname : String
  platform : String
  macAddress : String
  release : String
  shell : Option String
  vendor : String
  vsAppHost : String
  vsAppName : String
  vsAppSessionId : String
  vsMachineId : String
  vsMetadata : VsEnv
deriving DecidableEq, Repr

/-- The `file` object of the reporter payload (lines 233-236). -/
structure ReporterFile where
  content : Option (List Nat)
  path : String
deriving DecidableEq, Repr

/-- The `git` object of both payloads (lines 237-241, 339-341). -/
structure GitFields where
  branch : Option String
  commit : Option String
  repository : Option String
deriving DecidableEq, Repr

/-- The `session` object of the reporter payload (lines 242-245). -/
structure SessionOutputs where
  maskedOutput : String
  plainOutput : String
deriving DecidableEq, Repr

/-- The `extension` part of the reporter payload (lines 217-246). -/
structure ReporterExtension where
  autoSave : Bool
  device : ReporterDevice
  file : ReporterFile
  git : GitFields
  session : SessionOutputs
deriving DecidableEq, Repr

/-- The `notebook` part of the reporter payload (lines 247-263). -/
structure ReporterNotebook where
  cells : List NbCell
  frontmatter : Option Frontmatter
  metadata : String
deriving DecidableEq, Repr

/-- Variables of the `CreateExtensionCellOutput` mutation (lines 213-266). -/
structure ReporterInput where
  extension : ReporterExtension
  notebook : ReporterNotebook
deriving DecidableEq, Repr

/-- The `metadata` object of the legacy payload (lines 329-336). -/
structure LegacyMetadata where
  mimeType : Option String
  name : String
  category : String
  exitType : Option String
  startTime : Option Nat
  endTime : Option Nat
deriving DecidableEq, Repr

/-- The `notebook` object of the legacy payload (lines 307-315). -/
structure CreateNotebookInput where
  fileName : String
  id : Option String
  runmeVersion : Option String
deriving DecidableEq, Repr

/-- The nested `device.metadata` blob of the legacy payload
(lines 360-363). -/
structure LegacyDeviceMeta where
  vsEnv : VsEnv
deriving DecidableEq, Repr

/-- The `device` object of the legacy payload (lines 347-364). -/
structure LegacyDevice where
  macAddress : String
  hostname : String
  platform : String
  release : String
  arch : String
  vendor : String
  shell : String
  vsAppHost : String
  vsAppName : String
  vsAppSessionId : String
  vsMachineId : String
  metadata : LegacyDeviceMeta
deriving DecidableEq, Repr

/-- Variables of the `CreateCellExecution` mutation (lines 318-367). -/
structure LegacyInput where
  stdout : List UInt8
  stderr : List UInt8
  exitCode : Nat
  pid : Nat
  input : UriEncoded
  languageId : String
  autoSave : Bool
  metadata : LegacyMetadata
  id : Option String
  notebook : Option CreateNotebookInput
  branch : Option String
  repository : Option String
  commit : Option String
  fileContent : Option (List Nat)
  filePath : String
  sessionId : Option String
  plainSessionOutput : String
  maskedSessionOutput : String
  device : LegacyDevice
deriving DecidableEq, Repr

/-- A submitted GraphQL mutation: exactly one of the two wire variants. -/
inductive Mutation where
  | reporter (input : ReporterInput)
  | legacy (input : LegacyInput)
deriving DecidableEq, Repr

/-- The device hostname carried by a submitted mutation (either variant). -/
def Mutation.deviceHostname : Mutation → String
  | .reporter inp => inp.extension.device.hostname
  | .legacy inp => inp.device.hostname

/-- Every externally observable action of one run: replies posted, warnings
shown, mutations submitted, and auth-state-change listeners
added/removed. -/
structure RunOutput where
  replies : List Reply
  warnings : List String
  mutations : List Mutation
  listenersAdded : Nat
  listenersRemoved : Nat
deriving DecidableEq, Repr

/-! ## The pipeline -/

/-- Lines 78-82: read the current session; when absent and force-login is
on, request a new one. -/
def resolvedSession (env : SaveEnv) : Option StatefulAuthSession :=
  if env.currentSession.isNone && env.forceLogin then env.newSession
  else env.currentSession

/-- The session value the race assigns (lines 103-112): the event delivers
its session; a rejection leaves the `session` variable unassigned
(`undefined`). -/
def raceSession : RaceOutcome → Option StatefulAuthSession
  | .eventFired s => s
  | .timedOut => none
  | .cancelledReject => none

/-- The warning text of lines 129-131. -/
def timeoutWarningText : String :=
  "Saving timed out. Sign in to save your cells. Please try again."

/-- Number of auth-state-change listeners the run removes: the callback of
lines 89-94 deregisters itself when (and only when) the external
auth-state-change event first fires; no other code path removes it - the
`finally` block of line 114 disposes the inner `EventEmitter`, not the
`AuthSessionChangeHandler` registration. -/
def listenersRemovedCount (env : SaveEnv) : Nat :=
  if env.authChangeEventFires then 1 else 0

/-- Outcome of the authentication gate (lines 78-135): either the run
returned inside the gate (`silent` carries the observable output it produced
on the way out), or it proceeds into the submission pipeline with the
resolved session and the listener bookkeeping so far. -/
inductive AuthOutcome where
  | silent (out : RunOutput)
  | proceed (session : Option StatefulAuthSession)
      (listenersAdded listenersRemoved : Nat)
deriving DecidableEq, Repr

/-- Lines 78-135, the Authentication Gate.  On the interactive branch
(no session and `isUserAction`): the cloud panel command runs, one listener
is registered, the token is checked (line 98, point 1), the race settles,
and the `finally` block (lines 113-134) either returns silently on a
cancelled token (point 2), or replies `displayShare:false` plus a warning
when no session was delivered; a JS `return` inside `finally` swallows the
race's rejection, so neither the timeout nor the cancellation rejection ever
reaches the top-level catch. -/
def runAuthGate (env : SaveEnv) : AuthOutcome :=
  if (resolvedSession env).isNone && env.isUserAction then
    if isCancelled env 1 then
      .silent { replies := [], warnings := [], mutations := []
                listenersAdded := 1
                listenersRemoved := listenersRemovedCount env }
    else if isCancelled env 2 then
      .silent { replies := [], warnings := [], mutations := []
                listenersAdded := 1
                listenersRemoved := listenersRemovedCount env }
    else
      match raceSession env.raceOutcome with
      | none =>
          .silent { replies := [{ id := env.messageId
                                  data := .displayShareFalse
                                  hasErrors := false }]
                    warnings := [timeoutWarningText]
                    mutations := []
                    listenersAdded := 1
                    listenersRemoved := listenersRemovedCount env }
      | some s => .proceed (some s) 1 (listenersRemovedCount env)
  else
    .proceed (resolvedSession env) 0 0

/-- Line 173-176: the submitted hostname, with the loopback/K_SERVICE
override (JS truthiness: an empty `K_SERVICE` does not override). -/
def computeHostname (env : SaveEnv) : String :=
  if (["localhost", "127.0.0.1"].contains env.osHostname)
      && jsTruthyOptStr env.kService then
    env.kService.getD env.osHostname
  else
    env.osHostname

/-- Line 141: the submission file path - git-relative (template-literal
concatenation, so an undefined `relativePath` prints as "undefined") when a
repository is present, else the absolute path. -/
def computedFilePath (env : SaveEnv) : String :=
  if jsTruthyOptStr env.gitRepository then
    jsTemplateOpt env.gitRelativePath ++ ((env.path.splitOn "/").getLastD "")
  else
    env.path

/-- Line 142: raw file bytes, read only when a (truthy) path exists. -/
def computedFileContent (env : SaveEnv) : Option (List Nat) :=
  if env.path = "" then none else some env.fileBytes

/-- Lines 213-266: build the reporter-variant mutation variables from the
marshalled notebook and the located cell.  The cell's output items are
filtered to the stdout mime kind: the filter callback of lines 253-257
returns the (truthy) item exactly when `item.mime === OutputType.stdout`,
and `undefined` otherwise, so it keeps precisely the matching items. -/
def buildReporterInput (env : SaveEnv) (notebook : Notebook) (cell : NbCell) :
    ReporterInput :=
  let vsEnv := mkVsEnv env.vscodeEnv
  { extension :=
      { autoSave := env.autoSaveIsOn
        device :=
          { arch := env.osArch
            hostname := computeHostname env
            platform := env.osPlatform
            macAddress := env.macAddress
            release := env.osRelease
            shell := env.osUserShell
            vendor := env.osUserName
            vsAppHost := vsEnv.appHost
            vsAppName := vsEnv.appName
            vsAppSessionId := vsEnv.sessionId
            vsMachineId := vsEnv.machineId
            vsMetadata := vsEnv }
        file :=
          { content := computedFileContent env
            path := computedFilePath env }
        git :=
          { branch := env.gitBranch
            commit := env.gitCommit
            repository := env.gitRepository }
        session :=
          { maskedOutput := env.maskedSessionOutput
            plainOutput := env.plainSessionOutput } }
    notebook :=
      { cells :=
          [{ cell with
              outputs := cell.outputs.map fun output =>
                { output with
                    items := output.items.filter fun item =>
                      item.mime == OutputType.stdout } }]
        frontmatter := notebook.frontmatter
        metadata := notebook.metadata } }

/-- Lines 283-290: exit code of the legacy payload, from the runner
session's reported status. -/
def legacyExitCode (status : Option RunnerExitStatus) : Nat :=
  match status with
  | some (.exit code) => code
  | some .error => 1
  | none => 0

/-- Line 333: the `exitType` string of the legacy payload metadata. -/
def legacyExitType (status : Option RunnerExitStatus) : Option String :=
  match status with
  | some (.exit _) => some "exit"
  | some .error => some "error"
  | none => none

/-- Lines 296-305: the parsed frontmatter - the value cached on the notebook
metadata, else the YAML fallback parse (which leaves it undefined when
parsing throws). -/
def legacyFmParsed (env : SaveEnv) : Option Frontmatter :=
  match env.metadataFrontmatterParsed with
  | some fm => some fm
  | none => env.yamlFrontmatter

/-- Lines 307-315: the optional notebook reference, populated only when the
parsed frontmatter declares a (truthy) runme id or version. -/
def legacyNotebookInput (env : SaveEnv) : Option CreateNotebookInput :=
  let fmId := (legacyFmParsed env).bind Frontmatter.runme |>.bind FrontmatterRunme.id
  let fmVersion :=
    (legacyFmParsed env).bind Frontmatter.runme |>.bind FrontmatterRunme.version
  if jsTruthyOptStr fmId || jsTruthyOptStr fmVersion then
    some { fileName := env.path, id := fmId, runmeVersion := fmVersion }
  else
    none

/-- Lines 278-367: build the legacy-variant mutation variables from the live
cell and its terminal.  Line 292 deletes the internal record-id key from the
annotations before they feed the payload; line 294 UTF-8-encodes the
captured stdout text; line 323 hard-codes `stderr` to the empty array. -/
def buildLegacyInput (env : SaveEnv) (cell : LiveCell) (terminal : Terminal) :
    LegacyInput :=
  let vsEnv := mkVsEnv env.vscodeEnv
  let annotations := { cell.annotations with runmeDevId := none }
  let runnerExitStatus := terminal.runnerSession.bind RunnerSession.hasExited
  { stdout := env.stdoutText.toUTF8.toList
    stderr := []
    exitCode := legacyExitCode runnerExitStatus
    pid := jsNumOr terminal.processId 0
    input := { raw := cell.documentText }
    languageId := cell.languageId
    autoSave := env.autoSaveIsOn
    metadata :=
      { mimeType := annotations.mimeType
        name := annotations.name
        category := jsStringOr annotations.category ""
        exitType := legacyExitType runnerExitStatus
        startTime := cell.startTime
        endTime := cell.endTime }
    id := annotations.id
    notebook := legacyNotebookInput env
    branch := env.gitBranch
    repository := env.gitRepository
    commit := env.gitCommit
    fileContent := computedFileContent env
    filePath := computedFilePath env
    sessionId := env.runnerSessionId
    plainSessionOutput := env.plainSessionOutput
    maskedSessionOutput := env.maskedSessionOutput
    device :=
      { macAddress := env.macAddress
        hostname := computeHostname env
        platform := env.osPlatform
        release := env.osRelease
        arch := env.osArch
        vendor := env.cpuModel
        shell := vsEnv.shell
        vsAppHost := vsEnv.appHost
        vsAppName := vsEnv.appName
        vsAppSessionId := vsEnv.sessionId
        vsMachineId := vsEnv.machineId
        metadata := { vsEnv := vsEnv } } }

/-- The single failure reply of the top-level catch (lines 381-388). -/
def failOutput (env : SaveEnv) (msg : String)
    (la lr : Nat) (muts : List Mutation) : RunOutput :=
  { replies := [{ id := env.messageId, data := .errorMsg msg, hasErrors := true }]
    warnings := []
    mutations := muts
    listenersAdded := la
    listenersRemoved := lr }

/-- The reporter branch (lines 194-270): cache lookup, cell lookup, payload
build and mutation; a lookup failure throws and is caught by the top-level
boundary as a failure reply. -/
def reporterBranch (env : SaveEnv) (la lr : Nat) : RunOutput :=
  match env.marshalledNotebook with
  | none =>
      failOutput env ("Notebook data cache not found for cache ID: " ++ env.cacheId)
        la lr []
  | some notebook =>
      match notebook.cells.find? (fun c => c.metadata.id == some env.messageId) with
      | none =>
          failOutput env
            ("Cell not found in notebook "
              ++ jsTemplateOpt ((notebook.frontmatter.bind Frontmatter.runme).bind
                    FrontmatterRunme.id))
            la lr []
      | some cell =>
          let mutation := Mutation.reporter (buildReporterInput env notebook cell)
          match env.mutateError with
          | some e => failOutput env e la lr [mutation]
          | none =>
              { replies := [{ id := env.messageId
                              data := .success env.mutateResult
                              hasErrors := false }]
                warnings := []
                mutations := [mutation]
                listenersAdded := la
                listenersRemoved := lr }

/-- The legacy branch (lines 272-372): cell lookup, terminal lookup, payload
build and mutation; a lookup failure throws and is caught by the top-level
boundary as a failure reply. -/
def legacyBranch (env : SaveEnv) (la lr : Nat) : RunOutput :=
  match env.cellById with
  | none => failOutput env "Cell not found" la lr []
  | some cell =>
      match env.terminal with
      | none => failOutput env "Could not find an associated terminal" la lr []
      | some terminal =>
          let mutation := Mutation.legacy (buildLegacyInput env cell terminal)
          match env.mutateError with
          | some e => failOutput env e la lr [mutation]
          | none =>
              { replies := [{ id := env.messageId
                              data := .success env.mutateResult
                              hasErrors := false }]
                warnings := []
                mutations := [mutation]
                listenersAdded := la
                listenersRemoved := lr }

/-- Lines 137-380 after the authentication gate: client initialization, git
context, file read (all collaborator suspensions without observable output),
the no-session short-circuit of lines 147-154, and then the variant branch
selected by the reporter feature flag. -/
def continuePipeline (env : SaveEnv) (session : Option StatefulAuthSession)
    (la lr : Nat) : RunOutput :=
  match session with
  | none =>
      { replies := [{ id := env.messageId
                      data := .displayShareFalse
                      hasErrors := false }]
        warnings := []
        mutations := []
        listenersAdded := la
        listenersRemoved := lr }
  | some _ =>
      if env.isReporterEnabled then reporterBranch env la lr
      else legacyBranch env la lr

/-- The whole of `saveCellExecution` (lines 60-395) as a function from the
run environment to its observable output. -/
def saveCellExecution (env : SaveEnv) : RunOutput :=
  match runAuthGate env with
  | .silent out => out
  | .proceed session la lr => continuePipeline env session la lr

/-! ## The single-flight guard (lines 58, 67-72, 389-394)

The process-wide `currentCts` slot, modelled as a state machine over token
ids.  `beginRun` transcribes the inline guard of lines 67-72 (cancel the
held source if any, then install a fresh one); `endRun` transcribes the
`finally` block of lines 389-394 (dispose and clear only when the run's own
token is still the installed one).  Each operation is a single step of the
cooperative scheduler: the transcribed code contains no `await`, so nothing
can interleave between cancelling the old source and installing the new
one.  The `events` log records the observable actions in program order. -/

inductive GuardEvent where
  | runStart (id : Nat)
  | cancelPrev (id : Nat)
  | install (id : Nat)
  | disposeTok (id : Nat)
  | clear
deriving DecidableEq, Repr

/-- State of the single-flight slot: the installed token source (by id), a
fresh-id counter, the sets of cancelled and disposed source ids, and the
event log. -/
structure GuardState where
  current : Option Nat
  nextId : Nat
  cancelled : List Nat
  disposed : List Nat
  events : List GuardEvent
deriving DecidableEq, Repr

/-- The guard state before any run. -/
def initialGuard : GuardState :=
  { current := none, nextId := 0, cancelled := [], disposed := [], events := [] }

/-- Lines 67-72: on run start, cancel the currently held token source (if
any), then install a fresh one; returns the new state and the new token
id. -/
def beginRun (s : GuardState) : GuardState × Nat :=
  let n := s.nextId
  match s.current with
  | some old =>
      ({ current := some n
         nextId := n + 1
         cancelled := old :: s.cancelled
         disposed := s.disposed
         events := s.events ++ [.runStart n, .cancelPrev old, .install n] }, n)
  | none =>
      ({ current := some n
         nextId := n + 1
         cancelled := s.cancelled
         disposed := s.disposed
         events := s.events ++ [.runStart n, .install n] }, n)

/-- Lines 389-394: on run end, dispose the source and clear the slot only
when the ending run's token is still the installed one. -/
def endRun (s : GuardState) (t : Nat) : GuardState :=
  if s.current = some t then
    { s with
        current := none
        disposed := t :: s.disposed
        events := s.events ++ [.disposeTok t, .clear] }
  else s

/-! ## Concrete run environments

A fully concrete collaborator environment used (with field updates) by the
concrete counterexamples and witnesses below. -/

/-- A concrete vscode `env` collaborator. -/
def baseVscodeEnv : VscodeEnv :=
  { appHost := "desktop"
    appName := "VSCode"
    appRoot := "/app"
    isNewAppInstall := false
    language := "en"
    machineId := "m1"
    remoteName := none
    sessionId := "vs1"
    shell := "/bin/bash"
    uiKind := 1
    uriScheme := "vscode" }

/-- A concrete live cell for the legacy path. -/
def baseCell : LiveCell :=
  { annotations :=
      { id := some "ann-1"
        name := "cell"
        category := ""
        mimeType := none
        runmeDevId := some "r-1" }
    documentText := "echo hi"
    languageId := "sh"
    startTime := none
    endTime := none
    runmeId := "r-1" }

/-- A concrete terminal with no process id and no exit status. -/
def baseTerminal : Terminal :=
  { processId := none, runnerSession := none }

/-- A concrete marshalled notebook cell with output items of mixed mime
types. -/
def baseNbCell : NbCell :=
  { metadata := { id := some "cell-1" }
    outputs :=
      [{ items :=
           [{ mime := OutputType.stdout, data := "hello" },
            { mime := OutputType.error, data := "boom" },
            { mime := OutputType.html, data := "<p>" }]
         rest := "o1" }]
    value := "echo hi"
    languageId := "sh" }

/-- A concrete marshalled notebook holding one cell with output items of
mixed mime types. -/
def baseNotebook : Notebook :=
  { cells := [baseNbCell]
    frontmatter := none
    metadata := "nbmeta" }

/-- A concrete environment: authenticated run, legacy variant, every lookup
succeeding, never cancelled. -/
def baseEnv : SaveEnv :=
  { messageId := "cell-1"
    isUserAction := false
    stdoutText := ""
    isReporterEnabled := false
    autoSaveIsOn := false
    forceLogin := false
    currentSession := some { raw := "tok" }
    newSession := none
    raceOutcome := .timedOut
    authChangeEventFires := false
    cancelArrives := none
    path := "/repo/doc.md"
    metadataFrontmatterParsed := none
    yamlFrontmatter := none
    cacheId := "cache-1"
    plainSessionOutput := "plain"
    maskedSessionOutput := "masked"
    marshalledNotebook := some baseNotebook
    cellById := some baseCell
    terminal := some baseTerminal
    runnerSessionId := none
    gitBranch := none
    gitCommit := none
    gitRepository := none
    gitRelativePath := none
    fileBytes := []
    osHostname := "dev-box"
    kService := none
    osArch := "x64"
    osPlatform := "linux"
    osRelease := "6.1"
    macAddress := "00:11"
    osUserShell := none
    osUserName := "dev"
    cpuModel := "cpu0"
    vscodeEnv := baseVscodeEnv
    mutateError := none
    mutateResult := "remote-ok" }

/-- A run with no session and `isUserAction` set, never cancelled; the race
times out and the auth event never fires (timeout scenario). -/
def envNoSessionUser : SaveEnv :=
  { baseEnv with currentSession := none, isUserAction := true }

/-- The timeout scenario superseded early: the cancel request arrives before
the first token check. -/
def envNoSessionUserCancelled : SaveEnv :=
  { envNoSessionUser with cancelArrives := some 0 }

/-- An authenticated legacy run whose token is cancelled after the
authentication gate but before the response dispatch. -/
def envCancelledLate : SaveEnv :=
  { baseEnv with cancelArrives := some 3 }

/-- No existing session, not a user action, but force-login on and the
auth provider minting a fresh session. -/
def envForceLoginMints : SaveEnv :=
  { baseEnv with
      currentSession := none
      isUserAction := false
      forceLogin := true
      newSession := some { raw := "minted" } }

/-- No existing session, not a user action, force-login off. -/
def envNoSessionNoUser : SaveEnv :=
  { baseEnv with currentSession := none, isUserAction := false }

/-- An authenticated legacy run on a loopback hostname with the
deployment-service variable set to the empty string. -/
def envLoopbackEmptyKService : SaveEnv :=
  { baseEnv with osHostname := "localhost", kService := some "" }

/-- An authenticated legacy run on a loopback hostname with the
deployment-service variable set to a non-empty value. -/
def envLoopbackKService : SaveEnv :=
  { baseEnv with osHostname := "localhost", kService := some "svc-7" }

/-- An authenticated reporter-variant run over `baseNotebook` (whose cell
has output items of mixed mime types). -/
def envReporter : SaveEnv :=
  { baseEnv with isReporterEnabled := true }

/-- An authenticated legacy run whose target cell cannot be found. -/
def envCellMissing : SaveEnv :=
  { baseEnv with cellById := none }

/-- The error message the run would raise for the branch-specific
"not found" condition it is about to hit, if any: the notebook-snapshot
cache miss or cell miss of the reporter branch (lines 197-210), or the cell
miss or terminal miss of the legacy branch (lines 273-282). -/
def notFoundMsg (env : SaveEnv) : Option String :=
  if env.isReporterEnabled then
    match env.marshalledNotebook with
    | none => some ("Notebook data cache not found for cache ID: " ++ env.cacheId)
    | some nb =>
        match nb.cells.find? (fun c => c.metadata.id == some env.messageId) with
        | none =>
            some ("Cell not found in notebook "
              ++ jsTemplateOpt ((nb.frontmatter.bind Frontmatter.runme).bind
                    FrontmatterRunme.id))
        | some _ => none
  else
    match env.cellById with
    | none => some "Cell not found"
    | some _ =>
        match env.terminal with
        | none => some "Could not find an associated terminal"
        | some _ => none

/-! ## Helper lemmas -/

/-- A run that returns inside the authentication gate submits no
mutation. -/
theorem runAuthGate_silent_mutations (env : SaveEnv) (out : RunOutput)
    (h : runAuthGate env = .silent out) : out.mutations = [] := by
  unfold runAuthGate at h
  split at h
  · split at h
    · cases h; rfl
    · split at h
      · cases h; rfl
      · split at h
        · cases h; rfl
        · cases h
  · cases h

/-- Case analysis on the mutations a run submits: none at all, a single
reporter mutation built from the located notebook cell, or a single legacy
mutation built from the live cell and its terminal. -/
theorem saveCellExecution_mutations_cases (env : SaveEnv) :
    (saveCellExecution env).mutations = [] ∨
    (env.isReporterEnabled = true ∧ ∃ nb cell,
      env.marshalledNotebook = some nb ∧
      nb.cells.find? (fun c => c.metadata.id == some env.messageId) = some cell ∧
      (saveCellExecution env).mutations =
        [Mutation.reporter (buildReporterInput env nb cell)]) ∨
    (env.isReporterEnabled = false ∧ ∃ cell terminal,
      env.cellById = some cell ∧ env.terminal = some terminal ∧
      (saveCellExecution env).mutations =
        [Mutation.legacy (buildLegacyInput env cell terminal)]) := by
  unfold saveCellExecution
  cases hg : runAuthGate env with
  | silent out =>
      left
      exact runAuthGate_silent_mutations env out hg
  | proceed s la lr =>
      cases s with
      | none => left; rfl
      | some s =>
          show (continuePipeline env (some s) la lr).mutations = [] ∨ _ ∨ _
          unfold continuePipeline reporterBranch legacyBranch
          cases hr : env.isReporterEnabled with
          | true =>
              simp only [hr, if_true]
              cases hn : env.marshalledNotebook with
              | none => left; simp [failOutput]
              | some nb =>
                  cases hc : nb.cells.find?
                      (fun c => c.metadata.id == some env.messageId) with
                  | none => left; simp [hc, failOutput]
                  | some cell =>
                      right; left
                      refine ⟨trivial, nb, cell, rfl, hc, ?_⟩
                      cases hm : env.mutateError with
                      | none => simp [hc, hm]
                      | some e => simp [hc, hm, failOutput]
          | false =>
              simp only [hr, Bool.false_eq_true, if_false]
              cases hn : env.cellById with
              | none => left; simp [failOutput]
              | some cell =>
                  cases ht : env.terminal with
                  | none => left; simp [failOutput]
                  | some terminal =>
                      right; right
                      refine ⟨trivial, cell, terminal, rfl, rfl, ?_⟩
                      cases hm : env.mutateError with
                      | none => simp [hm]
                      | some e => simp [hm, failOutput]

/-- The submission pipeline passes the gate's listener bookkeeping through
unchanged on every path. -/
theorem continuePipeline_listeners (env : SaveEnv)
    (s : Option StatefulAuthSession) (la lr : Nat) :
    (continuePipeline env s la lr).listenersAdded = la ∧
    (continuePipeline env s la lr).listenersRemoved = lr := by
  unfold continuePipeline reporterBranch legacyBranch failOutput
  cases s with
  | none => exact ⟨rfl, rfl⟩
  | some s =>
      constructor <;> dsimp only <;> (repeat' split) <;> rfl

/-! ## Claims -/

/-- C7 counterexample: the claim "creating the new token immediately cancels
and disposes the previous token source" is false on the code.  Starting a
second run while the first one's source occupies the slot cancels source 0
but never disposes it: not at creation of the new source (lines 67-72
contain no `dispose` call) and not when the superseded run ends (its
`finally` guard `currentCts?.token === token` fails, lines 390-393). -/
theorem c7_counterexample :
    (beginRun (beginRun initialGuard).1).1.cancelled = [0] ∧
    (beginRun (beginRun initialGuard).1).1.disposed = [] ∧
    (endRun (beginRun (beginRun initialGuard).1).1 0).disposed = [] := by
  decide

/-- C7 (amended): whenever `saveCellExecution` starts while a previous run's
cancellation token source occupies the single-flight slot, creating the new
token immediately cancels the previous token source (but does not dispose
it), and the swap is a single atomic step whose event order places the start
of the new run strictly before the cancellation of the predecessor's token,
with the installation of the new token immediately after (no suspension
point in between, since lines 67-72 contain no await). -/
theorem c7_guard_swap (s : GuardState) (old : Nat) (h : s.current = some old) :
    (beginRun s).1.cancelled = old :: s.cancelled ∧
    (beginRun s).1.current = some s.nextId ∧
    (beginRun s).2 = s.nextId ∧
    (beginRun s).1.disposed = s.disposed ∧
    (beginRun s).1.events =
      s.events ++ [.runStart s.nextId, .cancelPrev old, .install s.nextId] := by
  simp [beginRun, h]

/-- C7 witness: the second run's guard swap cancels source 0. -/
theorem c7_witness :
    (beginRun (beginRun initialGuard).1).1.cancelled =
      0 :: (beginRun initialGuard).1.cancelled :=
  (c7_guard_swap (beginRun initialGuard).1 0 (by decide)).1

/-- C8: when a run ends, `endRun` disposes the source and clears the
process-wide slot only if the run's own token is still the installed one;
if a newer run has installed a different token, the ending run leaves the
state entirely unchanged. -/
theorem c8_endRun_clears_only_own_token (s : GuardState) (t : Nat) :
    (s.current = some t →
      endRun s t =
        { s with
            current := none
            disposed := t :: s.disposed
            events := s.events ++ [.disposeTok t, .clear] }) ∧
    (s.current ≠ some t → endRun s t = s) := by
  constructor
  · intro h
    simp [endRun, h]
  · intro h
    simp [endRun, h]

/-- C8 witness: the first run's completion clears the slot it still owns,
while a stale token id leaves the state unchanged. -/
theorem c8_witness :
    (endRun (beginRun initialGuard).1 0).current = none ∧
    endRun (beginRun initialGuard).1 7 = (beginRun initialGuard).1 := by
  constructor
  · rw [(c8_endRun_clears_only_own_token (beginRun initialGuard).1 0).1 (by decide)]
  · exact (c8_endRun_clears_only_own_token (beginRun initialGuard).1 7).2 (by decide)

/-- C9 counterexample: the claim is false when the deployment-service
variable is set to the empty string.  With OS hostname "localhost" and
`K_SERVICE` set to `""`, the run submits hostname "localhost", not the
variable's value: line 174 tests JS truthiness of `process.env.K_SERVICE`,
and the empty string is falsy. -/
theorem c9_counterexample :
    envLoopbackEmptyKService.osHostname = "localhost" ∧
    envLoopbackEmptyKService.kService = some "" ∧
    (saveCellExecution envLoopbackEmptyKService).mutations.map
      Mutation.deviceHostname = ["localhost"] := by
  decide

/-- C9 (amended): for every mutation a run submits, if the OS-reported
hostname is "localhost" or "127.0.0.1" and the deployment-service variable
`K_SERVICE` is set to a non-empty value, the submitted device hostname
equals that value; for any other OS hostname the submitted hostname equals
the OS hostname regardless of the variable. -/
theorem c9_hostname_override (env : SaveEnv) (m : Mutation)
    (hm : m ∈ (saveCellExecution env).mutations) :
    ((["localhost", "127.0.0.1"].contains env.osHostname = true) →
      ∀ v, env.kService = some v → v ≠ "" → m.deviceHostname = v) ∧
    ((["localhost", "127.0.0.1"].contains env.osHostname = false) →
      m.deviceHostname = env.osHostname) := by
  have hh : m.deviceHostname = computeHostname env := by
    rcases saveCellExecution_mutations_cases env with h |
        ⟨_, nb, cell, _, _, h⟩ | ⟨_, cell, term, _, _, h⟩
    · rw [h] at hm
      cases hm
    · rw [h] at hm
      simp only [List.mem_singleton] at hm
      subst hm
      rfl
    · rw [h] at hm
      simp only [List.mem_singleton] at hm
      subst hm
      rfl
  rw [hh]
  constructor
  · intro hloc v hk hv
    unfold computeHostname
    rw [hloc, hk]
    simp [jsTruthyOptStr, hv]
  · intro hloc
    unfold computeHostname
    rw [hloc]
    simp

/-- C9 witness: with OS hostname "localhost" and `K_SERVICE` set to "svc-7",
the submitted device hostname is "svc-7". -/
theorem c9_witness :
    (Mutation.legacy
      (buildLegacyInput envLoopbackKService baseCell baseTerminal)).deviceHostname
      = "svc-7" :=
  (c9_hostname_override envLoopbackKService _ (by
    have h : (saveCellExecution envLoopbackKService).mutations =
        [Mutation.legacy (buildLegacyInput envLoopbackKService baseCell baseTerminal)] :=
      rfl
    rw [h]
    exact List.mem_singleton_self _)).1 (by decide) "svc-7" rfl (by decide)

/-- C10: in a legacy-variant run that reaches submission, the payload's
exit code equals the runner session's reported code when the exit status
type is exit, equals 1 when the type is error, and equals 0 when no exit
status is available; and the payload's pid equals 0 when the terminal
reports no process id. -/
theorem c10_legacy_exit_code_pid (env : SaveEnv) (s : StatefulAuthSession)
    (la lr : Nat) (cell : LiveCell) (term : Terminal)
    (hg : runAuthGate env = .proceed (some s) la lr)
    (hr : env.isReporterEnabled = false)
    (hc : env.cellById = some cell)
    (ht : env.terminal = some term) :
    ∃ inp, (saveCellExecution env).mutations = [Mutation.legacy inp] ∧
      (∀ c, term.runnerSession.bind RunnerSession.hasExited = some (.exit c) →
        inp.exitCode = c) ∧
      (term.runnerSession.bind RunnerSession.hasExited = some .error →
        inp.exitCode = 1) ∧
      (term.runnerSession.bind RunnerSession.hasExited = none →
        inp.exitCode = 0) ∧
      (term.processId = none → inp.pid = 0) := by
  refine ⟨buildLegacyInput env cell term, ?_, ?_, ?_, ?_, ?_⟩
  · unfold saveCellExecution
    rw [hg]
    unfold continuePipeline legacyBranch
    simp only [hr, Bool.false_eq_true, if_false, hc, ht]
    cases hm : env.mutateError <;> simp [failOutput]
  · intro c h
    simp [buildLegacyInput, legacyExitCode, h]
  · intro h
    simp [buildLegacyInput, legacyExitCode, h]
  · intro h
    simp [buildLegacyInput, legacyExitCode, h]
  · intro h
    simp [buildLegacyInput, jsNumOr, h]

/-- C10 witness: in the base legacy run (no exit status, no process id) the
submitted payload carries exit code 0 and pid 0. -/
theorem c10_witness :
    ∃ inp, (saveCellExecution baseEnv).mutations = [Mutation.legacy inp] ∧
      inp.exitCode = 0 ∧ inp.pid = 0 := by
  obtain ⟨inp, h1, _, _, h4, h5⟩ :=
    c10_legacy_exit_code_pid baseEnv { raw := "tok" } 0 0 baseCell baseTerminal
      (by decide) rfl rfl rfl
  exact ⟨inp, h1, h4 rfl, h5 rfl⟩

/-- C6: whenever a run that passed the authentication gate hits a
"not found" condition - the cached notebook snapshot or its target cell on
the reporter branch, the live cell or its associated terminal on the legacy
branch - it sends exactly one failure reply carrying `hasErrors: true` and
the error's message text, shows no warning, and attempts no network
submission. -/
theorem c6_not_found_single_failure_reply (env : SaveEnv)
    (s : StatefulAuthSession) (la lr : Nat) (msg : String)
    (hg : runAuthGate env = .proceed (some s) la lr)
    (hnf : notFoundMsg env = some msg) :
    (saveCellExecution env).replies =
      [{ id := env.messageId, data := .errorMsg msg, hasErrors := true }] ∧
    (saveCellExecution env).mutations = [] ∧
    (saveCellExecution env).warnings = [] := by
  unfold notFoundMsg at hnf
  unfold saveCellExecution
  rw [hg]
  unfold continuePipeline reporterBranch legacyBranch
  cases hr : env.isReporterEnabled with
  | true =>
      rw [hr] at hnf
      simp only [if_true] at hnf
      cases hn : env.marshalledNotebook with
      | none =>
          rw [hn] at hnf
          simp only [Option.some.injEq] at hnf
          subst hnf
          simp [hr, hn, failOutput]
      | some nb =>
          rw [hn] at hnf
          simp only at hnf
          cases hc : nb.cells.find? (fun c => c.metadata.id == some env.messageId) with
          | none =>
              rw [hc] at hnf
              simp only [Option.some.injEq] at hnf
              subst hnf
              simp [hr, hn, hc, failOutput]
          | some cell =>
              rw [hc] at hnf
              simp at hnf
  | false =>
      rw [hr] at hnf
      simp only [Bool.false_eq_true, if_false] at hnf
      cases hn : env.cellById with
      | none =>
          rw [hn] at hnf
          simp only [Option.some.injEq] at hnf
          subst hnf
          simp [hr, hn, failOutput]
      | some cell =>
          rw [hn] at hnf
          simp only at hnf
          cases ht : env.terminal with
          | none =>
              rw [ht] at hnf
              simp only [Option.some.injEq] at hnf
              subst hnf
              simp [hr, hn, ht, failOutput]
          | some terminal =>
              rw [ht] at hnf
              simp at hnf

/-- C6 witness: a legacy run whose cell lookup fails produces exactly one
hasErrors reply with the thrown message and no mutation. -/
theorem c6_witness :
    (saveCellExecution envCellMissing).replies =
      [{ id := "cell-1", data := .errorMsg "Cell not found", hasErrors := true }] ∧
    (saveCellExecution envCellMissing).mutations = [] ∧
    (saveCellExecution envCellMissing).warnings = [] :=
  c6_not_found_single_failure_reply envCellMissing { raw := "tok" } 0 0
    "Cell not found" (by decide) (by decide)

/-- C3 counterexample: the claim is false when force-login is on and the
auth provider mints a session.  The run has no existing session and
`isUserAction` is false, yet lines 80-82 obtain a fresh session and the run
proceeds to a full network submission instead of the `displayShare:false`
short-circuit. -/
theorem c3_counterexample :
    envForceLoginMints.currentSession = none ∧
    envForceLoginMints.isUserAction = false ∧
    (saveCellExecution envForceLoginMints).mutations ≠ [] ∧
    (saveCellExecution envForceLoginMints).replies ≠
      [{ id := envForceLoginMints.messageId
         data := .displayShareFalse
         hasErrors := false }] := by
  decide

/-- C3 (amended): for every run with no existing session, `isUserAction`
false, and force-login either off or yielding no session, the pipeline
performs no network submission, shows no warning, and replies
`displayShare:false` without `hasErrors`. -/
theorem c3_no_session_short_circuit (env : SaveEnv)
    (h1 : env.currentSession = none)
    (h2 : env.forceLogin = false ∨ env.newSession = none)
    (h3 : env.isUserAction = false) :
    (saveCellExecution env).replies =
      [{ id := env.messageId, data := .displayShareFalse, hasErrors := false }] ∧
    (saveCellExecution env).mutations = [] ∧
    (saveCellExecution env).warnings = [] := by
  have hrs : resolvedSession env = none := by
    unfold resolvedSession
    rcases h2 with h2 | h2 <;> simp [h1, h2]
  unfold saveCellExecution runAuthGate
  rw [hrs]
  simp [h3, continuePipeline]

/-- C3 witness: no session, not a user action, force-login off: the run
replies `displayShare:false` with no mutation and no warning. -/
theorem c3_witness :
    (saveCellExecution envNoSessionNoUser).replies =
      [{ id := "cell-1", data := .displayShareFalse, hasErrors := false }] ∧
    (saveCellExecution envNoSessionNoUser).mutations = [] ∧
    (saveCellExecution envNoSessionNoUser).warnings = [] :=
  c3_no_session_short_circuit envNoSessionNoUser rfl (Or.inl rfl) rfl

/-- C4 counterexample: the claim is false for a superseded run.  With no
session, `isUserAction` true and the authentication event never firing, a
run whose token is cancelled before the line-98 check returns silently:
no `displayShare:false` reply and no warning are ever produced. -/
theorem c4_counterexample :
    envNoSessionUserCancelled.currentSession = none ∧
    envNoSessionUserCancelled.isUserAction = true ∧
    envNoSessionUserCancelled.raceOutcome = .timedOut ∧
    envNoSessionUserCancelled.authChangeEventFires = false ∧
    (saveCellExecution envNoSessionUserCancelled).replies = [] ∧
    (saveCellExecution envNoSessionUserCancelled).warnings = [] := by
  decide

/-- C4 (amended): for every run whose session resolution yields no session,
with `isUserAction` true, the authentication race timing out (the event
never fired within the bound), and the run's token never cancelled, the
pipeline replies `displayShare:false` (so the timeout rejection never
surfaces as a `hasErrors` failure reply), shows the timeout warning, and
performs no network submission. -/
theorem c4_auth_timeout (env : SaveEnv)
    (h1 : resolvedSession env = none)
    (h2 : env.isUserAction = true)
    (h3 : env.raceOutcome = .timedOut)
    (h4 : env.cancelArrives = none) :
    (saveCellExecution env).replies =
      [{ id := env.messageId, data := .displayShareFalse, hasErrors := false }] ∧
    (saveCellExecution env).warnings = [timeoutWarningText] ∧
    (saveCellExecution env).mutations = [] := by
  unfold saveCellExecution runAuthGate
  rw [h1]
  simp [h2, h3, isCancelled, h4, raceSession]

/-- C4 witness: the uncancelled timeout scenario produces the
`displayShare:false` reply and the warning. -/
theorem c4_witness :
    (saveCellExecution envNoSessionUser).replies =
      [{ id := "cell-1", data := .displayShareFalse, hasErrors := false }] ∧
    (saveCellExecution envNoSessionUser).warnings = [timeoutWarningText] ∧
    (saveCellExecution envNoSessionUser).mutations = [] :=
  c4_auth_timeout envNoSessionUser rfl rfl rfl rfl

/-- C1 counterexample: the claim is false on the code.  An authenticated
run whose token is cancelled after the authentication gate but before the
response dispatch (point 3) still completes with its success reply: the
code never re-checks `token.isCancellationRequested` after line 116, so
cancellation arriving at any later suspension point (client init, git
context, file read, save, cache reads, the mutation call) goes unnoticed. -/
theorem c1_counterexample :
    isCancelled envCancelledLate 3 = true ∧
    (saveCellExecution envCancelledLate).replies =
      [{ id := "cell-1", data := .success "remote-ok", hasErrors := false }] := by
  decide

/-- C1 (amended): cancellation is observed only at the two checkpoints
inside the interactive authentication gate (lines 98 and 116).  A run that
reaches the interactive race with no resolved session and whose token is
cancelled at either checkpoint aborts silently: no reply, no warning, no
network submission. -/
theorem c1_cancelled_at_checkpoint_silent (env : SaveEnv)
    (h1 : resolvedSession env = none)
    (h2 : env.isUserAction = true)
    (h3 : isCancelled env 1 = true ∨ isCancelled env 2 = true) :
    (saveCellExecution env).replies = [] ∧
    (saveCellExecution env).warnings = [] ∧
    (saveCellExecution env).mutations = [] := by
  unfold saveCellExecution runAuthGate
  rw [h1]
  simp only [Option.isNone_none, h2, Bool.and_self, if_true]
  cases hc1 : isCancelled env 1 with
  | true => simp
  | false =>
      have hc2 : isCancelled env 2 = true := by
        rcases h3 with h | h
        · rw [hc1] at h
          exact absurd h (by simp)
        · exact h
      simp [hc2]

/-- C1 witness: the interactive run cancelled before the line-98 check
produces no reply, no warning and no mutation. -/
theorem c1_witness :
    (saveCellExecution envNoSessionUserCancelled).replies = [] ∧
    (saveCellExecution envNoSessionUserCancelled).warnings = [] ∧
    (saveCellExecution envNoSessionUserCancelled).mutations = [] :=
  c1_cancelled_at_checkpoint_silent envNoSessionUserCancelled rfl rfl (Or.inl rfl)

/-- C2 counterexample: the claim is false on the code.  On the timeout exit
of the interactive authentication race (auth event never fires), the run
adds one listener but removes none: the `finally` block of line 114 only
disposes the inner `EventEmitter`, while the `AuthSessionChangeHandler`
callback deregisters itself solely when the auth-state-change event fires
(line 90), which never happens here - the listener stays registered. -/
theorem c2_counterexample :
    envNoSessionUser.currentSession = none ∧
    envNoSessionUser.isUserAction = true ∧
    envNoSessionUser.raceOutcome = .timedOut ∧
    envNoSessionUser.authChangeEventFires = false ∧
    (saveCellExecution envNoSessionUser).listenersAdded = 1 ∧
    (saveCellExecution envNoSessionUser).listenersRemoved = 0 := by
  decide

/-- C2 (amended): every run that enters the interactive authentication race
adds exactly one auth-state-change listener, and removes exactly one if the
auth-state-change event ever fires (the callback deregisters itself) and
zero otherwise - in particular, on the timeout, cancellation and
no-session exits of the race where the event never fires, the listener
remains registered. -/
theorem c2_listener_bookkeeping (env : SaveEnv)
    (h1 : resolvedSession env = none)
    (h2 : env.isUserAction = true) :
    (saveCellExecution env).listenersAdded = 1 ∧
    (saveCellExecution env).listenersRemoved =
      (if env.authChangeEventFires then 1 else 0) := by
  unfold saveCellExecution runAuthGate
  rw [h1]
  simp only [Option.isNone_none, h2, Bool.and_self, if_true]
  cases hc1 : isCancelled env 1 with
  | true => simp [listenersRemovedCount]
  | false =>
      cases hc2 : isCancelled env 2 with
      | true => simp [listenersRemovedCount]
      | false =>
          cases hro : raceSession env.raceOutcome with
          | none => simp [listenersRemovedCount]
          | some s =>
              exact
                ⟨(continuePipeline_listeners env (some s) 1
                    (listenersRemovedCount env)).1,
                 (continuePipeline_listeners env (some s) 1
                    (listenersRemovedCount env)).2⟩

/-- C2 witness: the timeout scenario adds one listener and removes none
(the event never fires there). -/
theorem c2_witness :
    (saveCellExecution envNoSessionUser).listenersAdded = 1 ∧
    (saveCellExecution envNoSessionUser).listenersRemoved =
      (if envNoSessionUser.authChangeEventFires then 1 else 0) :=
  c2_listener_bookkeeping envNoSessionUser rfl rfl

/-- C5: for every reporter mutation a run submits, the transmitted cell is
the located notebook cell with each output's items filtered to exactly the
subset whose mime type is the stdout output kind (so no other mime type
ever appears in the transmitted items); and every legacy mutation carries
an empty stderr byte sequence. -/
theorem c5_redaction (env : SaveEnv) :
    (∀ inp, Mutation.reporter inp ∈ (saveCellExecution env).mutations →
      ∃ nb cell,
        env.marshalledNotebook = some nb ∧
        nb.cells.find? (fun c => c.metadata.id == some env.messageId) = some cell ∧
        inp.notebook.cells =
          [{ cell with
              outputs := cell.outputs.map fun o =>
                { o with
                    items := o.items.filter fun i =>
                      i.mime == OutputType.stdout } }] ∧
        (∀ c' ∈ inp.notebook.cells, ∀ o' ∈ c'.outputs, ∀ i ∈ o'.items,
          i.mime = OutputType.stdout)) ∧
    (∀ inp, Mutation.legacy inp ∈ (saveCellExecution env).mutations →
      inp.stderr = []) := by
  rcases saveCellExecution_mutations_cases env with h |
      ⟨_, nb, cell, hn, hc, h⟩ | ⟨_, cell, term, hcb, ht, h⟩
  · constructor
    · intro inp hm
      rw [h] at hm
      cases hm
    · intro inp hm
      rw [h] at hm
      cases hm
  · constructor
    · intro inp hm
      rw [h] at hm
      simp only [List.mem_singleton, Mutation.reporter.injEq] at hm
      subst hm
      refine ⟨nb, cell, hn, hc, rfl, ?_⟩
      intro c' hc' o' ho' i hi
      simp only [buildReporterInput, List.mem_singleton] at hc'
      subst hc'
      simp only [List.mem_map] at ho'
      obtain ⟨o, ho, rfl⟩ := ho'
      simp only [List.mem_filter] at hi
      simpa using hi.2
    · intro inp hm
      rw [h] at hm
      simp at hm
  · constructor
    · intro inp hm
      rw [h] at hm
      simp at hm
    · intro inp hm
      rw [h] at hm
      simp only [List.mem_singleton, Mutation.legacy.injEq] at hm
      subst hm
      rfl

/-- C5 witness: in the reporter run over the mixed-mime notebook cell, the
transmitted cell keeps exactly the stdout item. -/
theorem c5_witness :
    ∃ nb cell,
      envReporter.marshalledNotebook = some nb ∧
      nb.cells.find? (fun c => c.metadata.id == some envReporter.messageId) =
        some cell ∧
      (buildReporterInput envReporter baseNotebook baseNbCell).notebook.cells =
        [{ cell with
            outputs := cell.outputs.map fun o =>
              { o with
                  items := o.items.filter fun i =>
                    i.mime == OutputType.stdout } }] ∧
      (∀ c' ∈ (buildReporterInput envReporter baseNotebook
          baseNbCell).notebook.cells,
        ∀ o' ∈ c'.outputs, ∀ i ∈ o'.items, i.mime = OutputType.stdout) :=
  (c5_redaction envReporter).1
    (buildReporterInput envReporter baseNotebook baseNbCell)
    (by
      have h : (saveCellExecution envReporter).mutations =
          [Mutation.reporter (buildReporterInput envReporter baseNotebook
            baseNbCell)] := rfl
      rw [h]
      exact List.mem_singleton_self _)
